import Mathlib

/-!
Verification of the CSP-collector report pipeline (`server.js`).

The development shallowly embeds the decision logic of the Express route
handlers: the custom body middleware for the `application/reports+json` and
`application/csp-report` content types (lines 14-49), the report-shape
extraction of `POST /csp-report/:uniqueId` (lines 91-177) and the statistics
aggregation of `GET /api/stats/:uniqueId` (lines 269-352).

JSON values are modelled by the inductive `Json`; JavaScript property access,
truthiness, `||` defaulting and the `TypeError` thrown by member access on
`null` are modelled explicitly.  `JSON.parse` is treated as an external
library call: its outcome is passed to the middleware model as an
`Option Json` (`none` models a parse exception).  MongoDB aggregation
(`$match`, `$group`, `$sort`, `$limit`) is modelled over an explicit list of
stored violation records.
-/

namespace CspCollector

/-- A JSON value, as produced by `JSON.parse`.  Numbers are modelled as
integers (no claim depends on non-integral numerics). -/
inductive Json where
  | null : Json
  | bool : Bool → Json
  | num : Int → Json
  | str : String → Json
  | arr : List Json → Json
  | obj : List (String × Json) → Json

mutual

/-- Boolean structural equality on `Json` (hand-rolled because `deriving
DecidableEq` does not handle nested inductives). -/
def jsonBEq : Json → Json → Bool
  | Json.null, Json.null => true
  | Json.bool a, Json.bool b => a == b
  | Json.num a, Json.num b => a == b
  | Json.str a, Json.str b => a == b
  | Json.arr as, Json.arr bs => jsonListBEq as bs
  | Json.obj fs, Json.obj gs => jsonFieldsBEq fs gs
  | _, _ => false
termination_by a _ => sizeOf a

/-- Equality on lists of JSON values. -/
def jsonListBEq : List Json → List Json → Bool
  | [], [] => true
  | a :: as, b :: bs => jsonBEq a b && jsonListBEq as bs
  | _, _ => false
termination_by as _ => sizeOf as

/-- Equality on JSON object field lists. -/
def jsonFieldsBEq : List (String × Json) → List (String × Json) → Bool
  | [], [] => true
  | (k, v) :: fs, (k2, v2) :: gs => k == k2 && jsonBEq v v2 && jsonFieldsBEq fs gs
  | _, _ => false
termination_by fs _ => sizeOf fs

end

/-- Soundness of the three boolean equalities, by induction on size. -/
theorem jsonBEq_sound (n : Nat) :
    (∀ a b : Json, sizeOf a ≤ n → (jsonBEq a b = true ↔ a = b)) ∧
    (∀ as bs : List Json, sizeOf as ≤ n → (jsonListBEq as bs = true ↔ as = bs)) ∧
    (∀ fs gs : List (String × Json), sizeOf fs ≤ n → (jsonFieldsBEq fs gs = true ↔ fs = gs)) := by
  induction n with
  | zero =>
    refine ⟨fun a b h => absurd h ?_, fun as bs h => absurd h ?_, fun fs gs h => absurd h ?_⟩
    · cases a <;> simp
    · cases as <;> simp
    · cases fs <;> simp
  | succ n ih =>
    obtain ⟨ihJ, ihL, ihF⟩ := ih
    refine ⟨fun a b h => ?_, fun as bs h => ?_, fun fs gs h => ?_⟩
    · cases a <;> cases b <;> rw [jsonBEq.eq_def] <;> simp
      case arr.arr as bs =>
        exact ihL as bs (by simp at h; omega)
      case obj.obj fs gs =>
        exact ihF fs gs (by simp at h; omega)
    · cases as with
      | nil => cases bs <;> rw [jsonListBEq.eq_def] <;> simp
      | cons a as =>
        cases bs with
        | nil => rw [jsonListBEq.eq_def]; simp
        | cons b bs =>
          rw [jsonListBEq.eq_def]
          simp only [Bool.and_eq_true, List.cons.injEq]
          have h1 : sizeOf a ≤ n := by simp at h; omega
          have h2 : sizeOf as ≤ n := by simp at h; omega
          exact and_congr (ihJ a b h1) (ihL as bs h2)
    · cases fs with
      | nil => cases gs <;> rw [jsonFieldsBEq.eq_def] <;> simp
      | cons f fs =>
        obtain ⟨k, v⟩ := f
        cases gs with
        | nil => rw [jsonFieldsBEq.eq_def]; simp
        | cons g gs =>
          obtain ⟨k2, v2⟩ := g
          rw [jsonFieldsBEq.eq_def]
          simp only [Bool.and_eq_true, List.cons.injEq, Prod.mk.injEq, beq_iff_eq]
          have h1 : sizeOf v ≤ n := by simp at h; omega
          have h2 : sizeOf fs ≤ n := by simp at h; omega
          rw [ihJ v v2 h1, ihF fs gs h2]

instance : DecidableEq Json := fun a b =>
  decidable_of_iff (jsonBEq a b = true) ((jsonBEq_sound (sizeOf a)).1 a b (Nat.le_refl _))

/-! ## JavaScript value semantics -/

/-- Property read `x[k]` on a non-null value: objects yield the first binding
of the key (objects produced by `JSON.parse` have unique keys), every other
non-null value yields `undefined`, modelled as `none`. -/
def jsGet : Json → String → Option Json
  | Json.obj fs, key => fs.lookup key
  | _, _ => none

/-- JavaScript truthiness of a JSON value. -/
def jsTruthy : Json → Bool
  | Json.null => false
  | Json.bool b => b
  | Json.num n => n != 0
  | Json.str s => s != ""
  | Json.arr _ => true
  | Json.obj _ => true

/-- Truthiness of a possibly-`undefined` value (`none` models `undefined`,
which is falsy). -/
def jsTruthyO : Option Json → Bool
  | some v => jsTruthy v
  | none => false

/-- Property read `x[k]` with JavaScript exception semantics: member access
on `null` throws a `TypeError` (modelled as `Except.error ()`). -/
def jsGetE (v : Json) (key : String) : Except Unit (Option Json) :=
  match v with
  | Json.null => Except.error ()
  | _ => Except.ok (jsGet v key)

/-- Optional chaining `b?.[k]`: yields `undefined` when `b` is `null` or
`undefined`, otherwise reads the property (never throws). -/
def optChainGet (b : Option Json) (key : String) : Option Json :=
  match b with
  | none => none
  | some Json.null => none
  | some v => jsGet v key

/-- JavaScript `a || dflt` where `a` may be `undefined`: returns `a` when
truthy, otherwise the fallback. -/
def jsOrElse (a : Option Json) (dflt : Json) : Json :=
  match a with
  | some v => if jsTruthy v then v else dflt
  | none => dflt

/-- Model of `Object.keys(x).length` for a non-null value: object field count, string
character count (a string exposes one index key per character), array length,
and `0` for numbers and booleans. -/
def objKeysLength : Json → Nat
  | Json.obj fs => fs.length
  | Json.str s => s.length
  | Json.arr xs => xs.length
  | _ => 0

/-- JavaScript `String.prototype.trim`: strip leading and trailing
whitespace. -/
def jsTrim (s : String) : String :=
  String.mk (((s.data.dropWhile Char.isWhitespace).reverse.dropWhile Char.isWhitespace).reverse)

/-- JavaScript `s.substring(0, n)`: the first `n` characters of `s`. -/
def jsSubstring (s : String) (n : Nat) : String :=
  String.mk (s.data.take n)

/-! ## JSON serialization (`JSON.stringify`) -/

/-- Lowercase hexadecimal digit, used for control-character escapes. -/
def hexDigit (n : Nat) : Char :=
  if n < 10 then Char.ofNat (48 + n) else Char.ofNat (87 + n)

/-- Escape of a single character inside a JSON string literal. -/
def escChar (c : Char) : String :=
  if c = '"' then "\\\""
  else if c = '\\' then "\\\\"
  else if c = '\x08' then "\\b"
  else if c = '\x09' then "\\t"
  else if c = '\x0a' then "\\n"
  else if c = '\x0c' then "\\f"
  else if c = '\x0d' then "\\r"
  else if c.toNat < 32 then "\\u00" ++ String.mk [hexDigit (c.toNat / 16), hexDigit (c.toNat % 16)]
  else String.singleton c

/-- Escape of the contents of a JSON string literal. -/
def escapeJsonString (s : String) : String :=
  String.join (s.data.map escChar)

mutual

/-- Model of `JSON.stringify` on a JSON value. -/
def jsonStringify : Json → String
  | Json.null => "null"
  | Json.bool true => "true"
  | Json.bool false => "false"
  | Json.num n => toString n
  | Json.str s => "\"" ++ escapeJsonString s ++ "\""
  | Json.arr xs => "[" ++ jsonArrayStringify xs ++ "]"
  | Json.obj fs => "\x7b" ++ jsonFieldsStringify fs ++ "\x7d"
termination_by j => sizeOf j

/-- Comma-separated serialization of array elements. -/
def jsonArrayStringify : List Json → String
  | [] => ""
  | [x] => jsonStringify x
  | x :: y :: rest => jsonStringify x ++ "," ++ jsonArrayStringify (y :: rest)
termination_by xs => sizeOf xs

/-- Comma-separated serialization of object fields. -/
def jsonFieldsStringify : List (String × Json) → String
  | [] => ""
  | [(key, v)] => "\"" ++ escapeJsonString key ++ "\":" ++ jsonStringify v
  | (key, v) :: f :: rest =>
      "\"" ++ escapeJsonString key ++ "\":" ++ jsonStringify v ++ "," ++
        jsonFieldsStringify (f :: rest)
termination_by fs => sizeOf fs

end

/-! ## Body middleware for application/reports+json and application/csp-report

For these two content types the server reads the raw bytes itself
(`server.js` lines 14-49).  A non-empty, non-whitespace body is handed to
`JSON.parse`; on success the parsed value becomes `req.body`, on a parse
exception `req.body` becomes an object with a single `rawData` field holding
the first 1000 characters of the raw body plus an ellipsis.  An empty or
whitespace-only body becomes the empty object.  The outcome of the external
`JSON.parse` call is abstracted as the `parsed` argument (`none` models a
parse exception). -/

/-- Resulting `req.body` after the custom middleware. -/
def middlewareBody (data : String) (parsed : Option Json) : Json :=
  if data != "" && jsTrim data != "" then
    match parsed with
    | some parsedBody => parsedBody
    | none => Json.obj [("rawData", Json.str (jsSubstring data 1000 ++ "..."))]
  else
    Json.obj []

/-! ## Report extraction (`POST /csp-report/:uniqueId`, lines 101-158) -/

/-- Sentinel report produced for a Reports-API array with no CSP entry. -/
def noCspArraySentinel : Json :=
  Json.obj [("document-uri", Json.str "Unknown (No CSP reports in array)"),
            ("violated-directive", Json.str "Unknown"),
            ("blocked-uri", Json.str "Unknown")]

/-- Sentinel report produced for an empty body or one that matches no known
format; `original-report` holds `JSON.stringify(req.body)`. -/
def emptyInvalidSentinel (body : Json) : Json :=
  Json.obj [("document-uri", Json.str "Unknown (Empty or Invalid Format)"),
            ("violated-directive", Json.str "Unknown"),
            ("blocked-uri", Json.str "Unknown"),
            ("original-report", Json.str (jsonStringify body))]

/-- Sentinel report produced by the `rawData` branch; `original-report`
holds `req.body.rawData` verbatim. -/
def parsingErrorSentinel (rawData : Json) : Json :=
  Json.obj [("document-uri", Json.str "Unknown (Parsing Error)"),
            ("violated-directive", Json.str "Unknown"),
            ("blocked-uri", Json.str "Unknown"),
            ("original-report", rawData)]

/-- Strict equality test `report.type === "csp-violation"`. -/
def typeIsCspViolation : Option Json → Bool
  | some (Json.str s) => s == "csp-violation"
  | _ => false

/-- Truthiness of `report.body?.["csp-report"]`. -/
def bodyHasCspReport (e : Json) : Bool :=
  jsTruthyO (optChainGet (jsGet e "body") "csp-report")

/-- The filter predicate of the Reports-API branch, on a non-null entry:
`report.type === "csp-violation" || report.body?.["csp-report"]`. -/
def entryMatchesB (e : Json) : Bool :=
  typeIsCspViolation (jsGet e "type") || bodyHasCspReport e

/-- The filter predicate with JavaScript exception semantics: evaluating
`report.type` on a `null` entry throws a `TypeError`. -/
def entryMatches (e : Json) : Except Unit Bool :=
  match e with
  | Json.null => Except.error ()
  | _ => Except.ok (entryMatchesB e)

/-- Model of `Array.prototype.filter` over a callback that may throw: the callback
runs on the elements in order and a thrown exception aborts the whole
`filter` call. -/
def filterE {α : Type} (p : α → Except Unit Bool) : List α → Except Unit (List α)
  | [] => Except.ok []
  | x :: xs =>
      match p x with
      | Except.error e => Except.error e
      | Except.ok b =>
          match filterE p xs with
          | Except.error e => Except.error e
          | Except.ok rest => Except.ok (if b then x :: rest else rest)

/-- Report value taken from the first matching Reports-API entry:
`firstReport.body?.["csp-report"] || firstReport.body || firstReport`. -/
def selectFromEntry (e : Json) : Json :=
  jsOrElse (optChainGet (jsGet e "body") "csp-report") (jsOrElse (jsGet e "body") e)

/-- The `reportData` selection of the CSP-report route (`server.js` lines
102-158), with JavaScript exception semantics: `Except.error ()` models a
thrown `TypeError`, which the catch block of the route turns into a 500
response. -/
def extractReportData (body : Json) : Except Unit Json :=
  match body with
  | Json.arr entries =>
      (match filterE entryMatches entries with
       | Except.error e => Except.error e
       | Except.ok (firstReport :: _) => Except.ok (selectFromEntry firstReport)
       | Except.ok [] => Except.ok noCspArraySentinel)
  | _ =>
      (match jsGetE body "csp-report" with
       | Except.error e => Except.error e
       | Except.ok cspReport =>
         if jsTruthyO cspReport then
           Except.ok (cspReport.getD Json.null)
         else
           match jsGetE body "report" with
           | Except.error e => Except.error e
           | Except.ok rep =>
             if jsTruthyO rep then
               Except.ok (rep.getD Json.null)
             else
               match jsGetE body "content-security-policy-report" with
               | Except.error e => Except.error e
               | Except.ok cspr =>
                 if jsTruthyO cspr then
                   Except.ok (cspr.getD Json.null)
                 else if objKeysLength body == 0 ||
                     (!jsTruthyO (jsGet body "document-uri") &&
                      !jsTruthyO (jsGet body "violated-directive")) then
                   Except.ok (emptyInvalidSentinel body)
                 else
                   match jsGetE body "rawData" with
                   | Except.error e => Except.error e
                   | Except.ok rawData =>
                     if jsTruthyO rawData then
                       Except.ok (parsingErrorSentinel (rawData.getD Json.null))
                     else
                       Except.ok body)

/-! ## Data model and ingestion pipeline -/

/-- A tenant record (`customerSchema`). -/
structure Customer where
  name : String
  uniqueId : String
  createdAt : Int

/-- A stored CSP violation record (`violationSchema`); `timestamp` is epoch
milliseconds assigned at write time. -/
structure Violation where
  customerId : String
  reportData : Json
  userAgent : Option String
  ipAddress : String
  timestamp : Int

/-- The persistent state: the customers and violations collections. -/
structure AppState where
  customers : List Customer
  violations : List Violation

/-- The observable HTTP outcome of a route: status code and the `error`
field of the JSON response body, if any. -/
structure Response where
  status : Nat
  error : Option String

/-- JavaScript `a || dflt` on an optional header string (absent or empty is
falsy). -/
def jsOrString (a : Option String) (dflt : String) : String :=
  match a with
  | some s => if s != "" then s else dflt
  | none => dflt

/-- Source-IP resolution of the ingestion route:
`req.headers["cf-connecting-ip"] || req.headers["x-forwarded-for"] || req.ip`. -/
def resolveIpAddress (cfConnectingIp forwardedFor : Option String) (reqIp : String) : String :=
  jsOrString cfConnectingIp (jsOrString forwardedFor reqIp)

/-- The `POST /csp-report/:uniqueId` handler (`server.js` lines 91-177):
resolve the tenant (404 with a fixed message when absent, nothing written),
run the extraction (a thrown `TypeError` is caught as a 500, nothing
written), then append exactly one violation record and answer 204. -/
def handleCspReport (st : AppState) (uniqueId : String) (body : Json)
    (userAgent : Option String) (cfConnectingIp forwardedFor : Option String)
    (reqIp : String) (now : Int) : Response × AppState :=
  match st.customers.find? (fun c => c.uniqueId == uniqueId) with
  | none => ({ status := 404, error := some "Invalid reporting endpoint" }, st)
  | some customer =>
    match extractReportData body with
    | Except.error _ => ({ status := 500, error := some "Internal server error" }, st)
    | Except.ok reportData =>
        ({ status := 204, error := none },
         { st with
            violations := st.violations ++
              [{ customerId := customer.uniqueId
                 reportData := reportData
                 userAgent := userAgent
                 ipAddress := resolveIpAddress cfConnectingIp forwardedFor reqIp
                 timestamp := now }] })

/-! ## Statistics aggregation (`GET /api/stats/:uniqueId`, lines 280-347)

The four outputs are modelled over one list of stored records (the claims
fix the stored set).  `endDate` and `startDate` are both derived from the
same clock instant `now`; `startDate.setDate(getDate() - days)` is modelled
as `now - days * 86400000` milliseconds.  Grouping keys follow MongoDB
`$group` semantics: a missing field groups together with a literal `null`. -/

/-- Milliseconds per day. -/
def msPerDay : Int := 86400000

/-- The `$match` condition shared by all four queries: same tenant and
`startDate <= timestamp <= endDate` (both ends inclusive). -/
def inWindow (uniqueId : String) (startDate endDate : Int) (v : Violation) : Bool :=
  v.customerId == uniqueId && decide (startDate ≤ v.timestamp) &&
    decide (v.timestamp ≤ endDate)

/-- The stored violations that fall inside the window. -/
def windowedViolations (violations : List Violation) (uniqueId : String)
    (days now : Int) : List Violation :=
  violations.filter (inWindow uniqueId (now - days * msPerDay) now)

/-- Grouping key `$reportData.violated-directive` (missing field groups as
`null`). -/
def directiveKey (v : Violation) : Json :=
  (jsGet v.reportData "violated-directive").getD Json.null

/-- Grouping key `$reportData.blocked-uri` (missing field groups as
`null`). -/
def blockedUriKey (v : Violation) : Json :=
  (jsGet v.reportData "blocked-uri").getD Json.null

/-- Grouping key of the daily counts: the UTC day index of the timestamp
(two timestamps share the `%Y-%m-%d` string of `$dateToString` exactly when
they share this floor-division day index). -/
def dayKey (v : Violation) : Int :=
  v.timestamp / msPerDay

/-- MongoDB `$group` with `count: \x7b $sum: 1 \x7d`: one pair per distinct
key with its number of occurrences. -/
def groupCounts {K : Type} [DecidableEq K] (keys : List K) : List (K × Nat) :=
  keys.dedup.map (fun k => (k, List.count k keys))

/-- The `$sort: \x7b count: -1 \x7d` order: counts descending. -/
abbrev countDescRel {K : Type} (p q : K × Nat) : Prop := q.2 ≤ p.2

instance {K : Type} : IsTotal (K × Nat) countDescRel :=
  ⟨fun a b => Nat.le_total b.2 a.2⟩

instance {K : Type} : IsTrans (K × Nat) countDescRel :=
  ⟨fun _ _ _ h1 h2 => Nat.le_trans h2 h1⟩

/-- The `$sort: \x7b _id: 1 \x7d` order of the daily counts: day ascending. -/
abbrev dayAscRel (p q : Int × Nat) : Prop := p.1 ≤ q.1

instance : IsTotal (Int × Nat) dayAscRel := ⟨fun a b => Int.le_total a.1 b.1⟩

instance : IsTrans (Int × Nat) dayAscRel := ⟨fun _ _ _ h1 h2 => Int.le_trans h1 h2⟩

/-- Sort groups by count descending (the MongoDB sort is stable; ties keep an
arbitrary but stable order). -/
def sortByCountDesc {K : Type} (l : List (K × Nat)) : List (K × Nat) :=
  l.insertionSort countDescRel

/-- Sort daily groups by day ascending. -/
def sortByDayAsc (l : List (Int × Nat)) : List (Int × Nat) :=
  l.insertionSort dayAscRel

/-- The JSON answer of the statistics route. -/
structure StatsOut where
  totalViolations : Nat
  byDirective : List (Json × Nat)
  byUri : List (Json × Nat)
  byDay : List (Int × Nat)

/-- The statistics aggregation for one tenant over a trailing window of
`days` days, over a fixed list of stored records: total count, counts by
directive (sorted by count descending), counts by blocked URI (same sort,
truncated to the top 10 by `$limit: 10`), counts by day (sorted
ascending). -/
def statsFor (violations : List Violation) (uniqueId : String) (days now : Int) : StatsOut :=
  { totalViolations := (windowedViolations violations uniqueId days now).length
    byDirective :=
      sortByCountDesc (groupCounts ((windowedViolations violations uniqueId days now).map directiveKey))
    byUri :=
      (sortByCountDesc (groupCounts ((windowedViolations violations uniqueId days now).map blockedUriKey))).take 10
    byDay :=
      sortByDayAsc (groupCounts ((windowedViolations violations uniqueId days now).map dayKey)) }

/-- Whether a report value carries all three grouping fields that the
statistics aggregation keys on. -/
def hasGroupKeys (r : Json) : Bool :=
  (jsGet r "document-uri").isSome && (jsGet r "violated-directive").isSome &&
    (jsGet r "blocked-uri").isSome

/-- A 5000-character raw request body (5000 times the letter a), which is
not valid JSON. -/
def rawBody5000 : String := String.mk (List.replicate 5000 'a')

/-! ## Helper lemmas -/

theorem foldl_append_length (l : List String) (acc : String) :
    (l.foldl (fun r s => r ++ s) acc).length = acc.length + (l.map String.length).sum := by
  induction l generalizing acc with
  | nil => simp
  | cons s l ih => simp [ih, String.length_append]; omega

theorem length_join (l : List String) : (String.join l).length = (l.map String.length).sum := by
  simpa [String.join] using foldl_append_length l ""

theorem length_escape (l : List Char) :
    (escapeJsonString (String.mk l)).length = ((l.map escChar).map String.length).sum := by
  simpa [escapeJsonString] using length_join (l.map escChar)

theorem escChar_a : escChar 'a' = "a" := rfl

theorem escChar_dot : escChar '.' = "." := rfl

theorem sum_groupCounts {K : Type} [DecidableEq K] (ks : List K) :
    ((groupCounts ks).map Prod.snd).sum = ks.length := by
  have h := List.sum_map_count_dedup_eq_length ks
  simpa [groupCounts, List.map_map, Function.comp] using h

theorem sum_snd_sortByCountDesc {K : Type} (l : List (K × Nat)) :
    ((sortByCountDesc l).map Prod.snd).sum = (l.map Prod.snd).sum :=
  ((List.perm_insertionSort countDescRel l).map Prod.snd).sum_eq

theorem sum_snd_sortByDayAsc (l : List (Int × Nat)) :
    ((sortByDayAsc l).map Prod.snd).sum = (l.map Prod.snd).sum :=
  ((List.perm_insertionSort dayAscRel l).map Prod.snd).sum_eq

theorem sum_take_le (l : List Nat) (n : Nat) : (l.take n).sum ≤ l.sum := by
  conv_rhs => rw [← List.take_append_drop n l]
  rw [List.sum_append]
  exact Nat.le_add_right _ _

theorem entryMatches_eq {e : Json} (h : e ≠ Json.null) :
    entryMatches e = Except.ok (entryMatchesB e) := by
  cases e
  case null => exact absurd rfl h
  all_goals rfl

theorem filterE_entryMatches (entries : List Json) (h : ∀ e ∈ entries, e ≠ Json.null) :
    filterE entryMatches entries = Except.ok (entries.filter entryMatchesB) := by
  induction entries with
  | nil => rfl
  | cons x xs ih =>
    have hx := entryMatches_eq (h x (List.mem_cons_self x xs))
    have hxs := ih (fun e he => h e (List.mem_cons_of_mem x he))
    rw [filterE, hx, hxs, List.filter_cons]

theorem jsTrim_replicateA (n : Nat) :
    jsTrim (String.mk (List.replicate (n + 1) 'a')) = String.mk (List.replicate (n + 1) 'a') := by
  have hws : Char.isWhitespace 'a' = false := rfl
  have h1 : List.dropWhile Char.isWhitespace (List.replicate (n + 1) 'a') =
      List.replicate (n + 1) 'a' := by
    rw [List.replicate_succ, List.dropWhile_cons, hws]
    simp
  simp only [jsTrim, h1, List.reverse_replicate]

theorem replicateA_ne_empty (n : Nat) : String.mk (List.replicate (n + 1) 'a') ≠ "" := by
  intro hcon
  have hdata : List.replicate (n + 1) 'a' = ([] : List Char) := congrArg String.data hcon
  simp [List.replicate_succ] at hdata

theorem middlewareBody_replicateA (n : Nat) :
    middlewareBody (String.mk (List.replicate (n + 1) 'a')) none =
      Json.obj [("rawData",
        Json.str (jsSubstring (String.mk (List.replicate (n + 1) 'a')) 1000 ++ "..."))] := by
  have hcond : ((String.mk (List.replicate (n + 1) 'a') != "") &&
      (jsTrim (String.mk (List.replicate (n + 1) 'a')) != "")) = true := by
    rw [jsTrim_replicateA]
    simp [bne_iff_ne, replicateA_ne_empty n]
  simp [middlewareBody, hcond]

theorem top10_spec {K : Type} (gc : List (K × Nat)) :
    ((sortByCountDesc gc).take 10).length ≤ 10 ∧
    ((sortByCountDesc gc).take 10).Pairwise (fun p q : K × Nat => q.2 ≤ p.2) ∧
    (∀ q ∈ gc, q ∉ (sortByCountDesc gc).take 10 →
      ∀ p ∈ (sortByCountDesc gc).take 10, q.2 ≤ p.2) := by
  have hsorted := List.sorted_insertionSort countDescRel gc
  refine ⟨List.length_take_le 10 _,
    List.Pairwise.sublist (List.take_sublist 10 _) hsorted, ?_⟩
  intro q hq hnot p hp
  have hqs : q ∈ List.insertionSort countDescRel gc :=
    (List.perm_insertionSort countDescRel gc).mem_iff.mpr hq
  have hsplit := List.take_append_drop 10 (List.insertionSort countDescRel gc)
  have hq2 : q ∈ (List.insertionSort countDescRel gc).take 10 ++
      (List.insertionSort countDescRel gc).drop 10 := by
    rw [hsplit]; exact hqs
  have hqd : q ∈ (List.insertionSort countDescRel gc).drop 10 := by
    rcases List.mem_append.mp hq2 with hcase | hcase
    · exact absurd hcase hnot
    · exact hcase
  have hpw := List.pairwise_append.mp
    (show List.Pairwise countDescRel ((List.insertionSort countDescRel gc).take 10 ++
        (List.insertionSort countDescRel gc).drop 10) by rw [hsplit]; exact hsorted)
  exact hpw.2.2 p hp q hqd

/-! ## Claims -/

/-- Claim C1 (code-bug evidence): on a parse failure the middleware sets the
body to an object with a single `rawData` field; the extractor then routes
that body to the Empty-or-Invalid branch, because the body has no
`document-uri` and no `violated-directive` key, and that branch is checked
before the `rawData` branch.  The resulting `documentUri` is the
"Unknown (Empty or Invalid Format)" sentinel — not the
"Unknown (Parsing Error)" sentinel the claim (and the comment in the source)
expect — and `original-report` is the JSON serialization of the `rawData`
wrapper rather than the truncated raw bytes. -/
theorem parseFailureTakesEmptyInvalidBranch :
    middlewareBody "not json" none = Json.obj [("rawData", Json.str "not json...")] ∧
    extractReportData (Json.obj [("rawData", Json.str "not json...")]) =
      Except.ok (emptyInvalidSentinel (Json.obj [("rawData", Json.str "not json...")])) ∧
    jsGet (emptyInvalidSentinel (Json.obj [("rawData", Json.str "not json...")]))
        "document-uri" = some (Json.str "Unknown (Empty or Invalid Format)") ∧
    jsGet (emptyInvalidSentinel (Json.obj [("rawData", Json.str "not json...")]))
        "document-uri" ≠ some (Json.str "Unknown (Parsing Error)") := by
  refine ⟨rfl, rfl, rfl, ?_⟩
  have h3 : jsGet (emptyInvalidSentinel (Json.obj [("rawData", Json.str "not json...")]))
      "document-uri" = some (Json.str "Unknown (Empty or Invalid Format)") := rfl
  rw [h3]
  simp

/-- Claim C2 (counterexample): the body consisting of an empty `csp-report`
wrapper is extracted to the empty object, which carries none of the three
grouping keys — no "Unknown" defaulting takes place. -/
theorem cspReportMissingKeysCounterexample :
    extractReportData (Json.obj [("csp-report", Json.obj [])]) = Except.ok (Json.obj []) ∧
    hasGroupKeys (Json.obj []) = false :=
  ⟨rfl, rfl⟩

/-- Claim C2 (amended): only the reports the extractor synthesizes itself —
the no-CSP-reports-in-array sentinel, the empty-or-invalid sentinel and the
parsing-error sentinel — are guaranteed to carry values for `documentUri`,
`violatedDirective` and `blockedUri`; a report-shaped value selected from
the body is used verbatim, with no defaulting of missing keys. -/
theorem sentinelReportsCarryGroupKeys :
    hasGroupKeys noCspArraySentinel = true ∧
    (∀ b : Json, hasGroupKeys (emptyInvalidSentinel b) = true) ∧
    (∀ v : Json, hasGroupKeys (parsingErrorSentinel v) = true) :=
  ⟨rfl, fun _ => rfl, fun _ => rfl⟩

theorem sentinelReportsCarryGroupKeysWitness :
    hasGroupKeys (emptyInvalidSentinel (Json.obj [])) = true ∧
    hasGroupKeys (parsingErrorSentinel (Json.str "raw")) = true :=
  ⟨sentinelReportsCarryGroupKeys.2.1 (Json.obj []),
   sentinelReportsCarryGroupKeys.2.2 (Json.str "raw")⟩

/-- Claim C3 (code-bug evidence): for a 5000-character unparseable raw body,
the middleware truncation itself is correct — the `rawData` value is exactly
the first 1000 characters plus the three-character ellipsis, 1003 characters
in total — but the extractor sends the body through the Empty-or-Invalid
branch, so the stored `original-report` is the JSON serialization of the
whole `rawData` wrapper object: 1017 characters starting with a brace, not
the truncated raw input plus suffix that the claim describes. -/
theorem storedOriginalReportIsSerializedWrapper :
    middlewareBody rawBody5000 none =
      Json.obj [("rawData", Json.str (jsSubstring rawBody5000 1000 ++ "..."))] ∧
    (jsSubstring rawBody5000 1000 ++ "...").length = 1003 ∧
    extractReportData (middlewareBody rawBody5000 none) =
      Except.ok (emptyInvalidSentinel (middlewareBody rawBody5000 none)) ∧
    jsGet (emptyInvalidSentinel (middlewareBody rawBody5000 none)) "original-report" =
      some (Json.str (jsonStringify (middlewareBody rawBody5000 none))) ∧
    (jsonStringify (middlewareBody rawBody5000 none)).length = 1017 := by
  have hmb : middlewareBody rawBody5000 none =
      Json.obj [("rawData", Json.str (jsSubstring rawBody5000 1000 ++ "..."))] := by
    have h := middlewareBody_replicateA 4999
    norm_num at h
    exact h
  have htake : jsSubstring rawBody5000 1000 = String.mk (List.replicate 1000 'a') := by
    simp only [jsSubstring, rawBody5000, List.take_replicate]
    norm_num
  have hlen1003 : (jsSubstring rawBody5000 1000 ++ "...").length = 1003 := by
    rw [htake]
    show (String.mk (List.replicate 1000 'a' ++ "...".data)).length = 1003
    rw [String.length_mk, List.length_append, List.length_replicate]
    decide
  have hT : jsSubstring rawBody5000 1000 ++ "..." =
      String.mk (List.replicate 1000 'a' ++ ['.', '.', '.']) := by
    rw [htake]
    rfl
  have hesc : (escapeJsonString (String.mk (List.replicate 1000 'a' ++ ['.', '.', '.']))).length
      = 1003 := by
    rw [length_escape, List.map_append, List.map_replicate, escChar_a,
      List.map_append, List.map_replicate, List.sum_append, List.sum_replicate]
    decide
  have hstr : (jsonStringify
      (Json.obj [("rawData", Json.str (jsSubstring rawBody5000 1000 ++ "..."))])).length
      = 1017 := by
    simp only [jsonStringify, jsonFieldsStringify]
    rw [hT]
    simp only [String.length_append, hesc]
    decide
  refine ⟨hmb, hlen1003, ?_, ?_, ?_⟩
  · rw [hmb]
    rfl
  · rw [hmb]
    rfl
  · rw [hmb]
    exact hstr

/-- Claim C4 (amended): for an array-shaped body none of whose entries is
`null`, the extractor keeps exactly the entries whose `type` strictly equals
"csp-violation" or whose `body` has a truthy `csp-report` field; when at
least one entry matches it selects the first match in array order and uses
`body["csp-report"]` if truthy, else `body` if truthy, else the entry
itself; when none matches it produces the fixed sentinel triple
("Unknown (No CSP reports in array)", "Unknown", "Unknown").  A `null`
entry instead makes the filter callback throw, failing the whole request
(see the counterexample). -/
theorem arrayExtractionFirstMatch (entries : List Json)
    (h : ∀ e ∈ entries, e ≠ Json.null) :
    extractReportData (Json.arr entries) =
      Except.ok
        (match entries.filter entryMatchesB with
         | firstReport :: _ => selectFromEntry firstReport
         | [] => noCspArraySentinel) := by
  have hf := filterE_entryMatches entries h
  simp only [extractReportData, hf]
  cases entries.filter entryMatchesB <;> rfl

theorem arrayExtractionFirstMatchWitness :
    extractReportData (Json.arr [Json.obj [("type", Json.str "csp-violation")]]) =
      Except.ok
        (match [Json.obj [("type", Json.str "csp-violation")]].filter entryMatchesB with
         | firstReport :: _ => selectFromEntry firstReport
         | [] => noCspArraySentinel) :=
  arrayExtractionFirstMatch [Json.obj [("type", Json.str "csp-violation")]] (by simp)

/-- Claim C4 (counterexample): the array `[null, e]` where `e` is a matching
csp-violation entry contains a matching entry, yet the extractor does not
select it: the filter callback evaluates `null.type`, which throws, so the
whole extraction fails (the route answers 500 and stores nothing). -/
theorem nullEntryArrayCounterexample :
    entryMatchesB (Json.obj [("type", Json.str "csp-violation")]) = true ∧
    extractReportData (Json.arr [Json.null, Json.obj [("type", Json.str "csp-violation")]]) =
      Except.error () :=
  ⟨rfl, rfl⟩

/-- Claim C5: for any fixed stored record set, tenant and window, the
statistics are mutually consistent — the `byDirective` counts sum to
`totalViolations`, the `byDay` counts sum to `totalViolations`, and the
`byUri` counts sum to at most `totalViolations` (the top-10 cap may drop
groups). -/
theorem statsSumsConsistent (vs : List Violation) (uniqueId : String) (days now : Int) :
    ((statsFor vs uniqueId days now).byDirective.map Prod.snd).sum =
        (statsFor vs uniqueId days now).totalViolations ∧
    ((statsFor vs uniqueId days now).byDay.map Prod.snd).sum =
        (statsFor vs uniqueId days now).totalViolations ∧
    ((statsFor vs uniqueId days now).byUri.map Prod.snd).sum ≤
        (statsFor vs uniqueId days now).totalViolations := by
  refine ⟨?_, ?_, ?_⟩
  · show ((sortByCountDesc (groupCounts
        ((windowedViolations vs uniqueId days now).map directiveKey))).map Prod.snd).sum =
      (windowedViolations vs uniqueId days now).length
    rw [sum_snd_sortByCountDesc, sum_groupCounts, List.length_map]
  · show ((sortByDayAsc (groupCounts
        ((windowedViolations vs uniqueId days now).map dayKey))).map Prod.snd).sum =
      (windowedViolations vs uniqueId days now).length
    rw [sum_snd_sortByDayAsc, sum_groupCounts, List.length_map]
  · show (((sortByCountDesc (groupCounts
        ((windowedViolations vs uniqueId days now).map blockedUriKey))).take 10).map
          Prod.snd).sum ≤
      (windowedViolations vs uniqueId days now).length
    rw [List.map_take]
    refine le_trans (sum_take_le _ 10) ?_
    rw [sum_snd_sortByCountDesc, sum_groupCounts, List.length_map]

theorem statsSumsConsistentWitness :
    ((statsFor [] "tenant1" 7 0).byDirective.map Prod.snd).sum =
        (statsFor [] "tenant1" 7 0).totalViolations ∧
    ((statsFor [] "tenant1" 7 0).byDay.map Prod.snd).sum =
        (statsFor [] "tenant1" 7 0).totalViolations ∧
    ((statsFor [] "tenant1" 7 0).byUri.map Prod.snd).sum ≤
        (statsFor [] "tenant1" 7 0).totalViolations :=
  statsSumsConsistent [] "tenant1" 7 0

/-- Claim C6 (amended): whenever every stored record is timestamped
strictly before the query instant, any non-positive `windowDays` yields the
zero-count result, and no error is raised (the aggregation is total).  For
`windowDays = 0` the window is the single instant `[now, now]`, not an
empty one, so a record stamped exactly at the query instant is still
counted (see the counterexample). -/
theorem nonpositiveWindowZeroStats (vs : List Violation) (uniqueId : String) (days now : Int)
    (hdays : days ≤ 0) (hpast : ∀ v ∈ vs, v.timestamp < now) :
    statsFor vs uniqueId days now =
      { totalViolations := 0, byDirective := [], byUri := [], byDay := [] } := by
  have hw : windowedViolations vs uniqueId days now = [] := by
    refine List.filter_eq_nil_iff.mpr ?_
    intro v hv
    have hts := hpast v hv
    simp only [inWindow, msPerDay, Bool.and_eq_true, decide_eq_true_eq, not_and]
    rintro ⟨-, h1⟩ h2
    omega
  simp [statsFor, hw, groupCounts, sortByCountDesc, sortByDayAsc, List.insertionSort]

theorem nonpositiveWindowZeroStatsWitness :
    (0 : Int) ≤ 0 ∧
    statsFor [] "tenant1" 0 0 =
      { totalViolations := 0, byDirective := [], byUri := [], byDay := [] } :=
  ⟨le_refl 0, nonpositiveWindowZeroStats [] "tenant1" 0 0 (le_refl 0) (by simp)⟩

/-- Claim C6 (counterexample): `windowDays = 0` is non-positive, yet a
record stamped exactly at the query instant falls inside the inclusive
window `[now, now]`, so the total is 1, not 0. -/
theorem zeroWindowCountsSameInstantRecord :
    (statsFor [{ customerId := "tenant1", reportData := Json.obj [], userAgent := none,
                 ipAddress := "", timestamp := 5 }] "tenant1" 0 5).totalViolations = 1 := rfl

/-- Claim C7: when the tenant identifier resolves to no customer, the
ingestion route answers 404 with the fixed message "Invalid reporting
endpoint" and leaves the stored state — in particular the violations
collection — unchanged. -/
theorem unknownTenantNoWrite (st : AppState) (uniqueId : String) (body : Json)
    (userAgent cfConnectingIp forwardedFor : Option String) (reqIp : String) (now : Int)
    (h : st.customers.find? (fun c => c.uniqueId == uniqueId) = none) :
    handleCspReport st uniqueId body userAgent cfConnectingIp forwardedFor reqIp now =
      ({ status := 404, error := some "Invalid reporting endpoint" }, st) := by
  simp only [handleCspReport, h]

theorem unknownTenantNoWriteWitness :
    (AppState.mk [] []).customers.find? (fun c => c.uniqueId == "t") = none ∧
    handleCspReport (AppState.mk [] []) "t" Json.null none none none "203.0.113.9" 0 =
      ({ status := 404, error := some "Invalid reporting endpoint" }, AppState.mk [] []) :=
  ⟨rfl, unknownTenantNoWrite (AppState.mk [] []) "t" Json.null none none none "203.0.113.9" 0 rfl⟩

/-- Claim C8: a body of the shape `\x7b "csp-report": R \x7d` is extracted
to the nested object `R` itself, so every field of the output — in
particular `document-uri`, `violated-directive`, `blocked-uri`,
`source-file`, `line-number`, `column-number` and `effective-directive` —
is exactly the corresponding field of `R`, verbatim. -/
theorem cspReportFieldsVerbatim (reportFields : List (String × Json)) :
    extractReportData (Json.obj [("csp-report", Json.obj reportFields)]) =
      Except.ok (Json.obj reportFields) := rfl

theorem cspReportFieldsVerbatimWitness :
    extractReportData (Json.obj [("csp-report",
        Json.obj [("document-uri", Json.str "https://x"),
                  ("violated-directive", Json.str "script-src")])]) =
      Except.ok (Json.obj [("document-uri", Json.str "https://x"),
                          ("violated-directive", Json.str "script-src")]) :=
  cspReportFieldsVerbatim
    [("document-uri", Json.str "https://x"), ("violated-directive", Json.str "script-src")]

/-- Claim C9: the `byUri` grouping never has more than 10 entries, it is
ordered by count descending, and every group it drops has a count no larger
than any group it keeps — the 10 kept are a top-10 by count. -/
theorem byUriTop10 (vs : List Violation) (uniqueId : String) (days now : Int) :
    (statsFor vs uniqueId days now).byUri.length ≤ 10 ∧
    (statsFor vs uniqueId days now).byUri.Pairwise (fun p q => q.2 ≤ p.2) ∧
    (∀ q ∈ groupCounts ((windowedViolations vs uniqueId days now).map blockedUriKey),
      q ∉ (statsFor vs uniqueId days now).byUri →
      ∀ p ∈ (statsFor vs uniqueId days now).byUri, q.2 ≤ p.2) :=
  top10_spec (groupCounts ((windowedViolations vs uniqueId days now).map blockedUriKey))

theorem byUriTop10Witness :
    (statsFor [] "tenant1" 7 0).byUri.length ≤ 10 ∧
    (statsFor [] "tenant1" 7 0).byUri.Pairwise (fun p q => q.2 ≤ p.2) ∧
    (∀ q ∈ groupCounts ((windowedViolations [] "tenant1" 7 0).map blockedUriKey),
      q ∉ (statsFor [] "tenant1" 7 0).byUri →
      ∀ p ∈ (statsFor [] "tenant1" 7 0).byUri, q.2 ≤ p.2) :=
  byUriTop10 [] "tenant1" 7 0

/-- Claim C10: under the special content types, an empty or whitespace-only
raw body is turned into the empty object by the middleware — it is never
treated as a parse failure — and the extractor then produces the
"Unknown (Empty or Invalid Format)" sentinel in `document-uri`, "Unknown"
in `violated-directive` and `blocked-uri`, and the serialization of the
empty object as `original-report`; the parsing-error sentinel is not
produced. -/
theorem emptyBodySentinelReport (data : String) (parsed : Option Json)
    (h : jsTrim data = "") :
    middlewareBody data parsed = Json.obj [] ∧
    extractReportData (middlewareBody data parsed) =
      Except.ok (Json.obj
        [("document-uri", Json.str "Unknown (Empty or Invalid Format)"),
         ("violated-directive", Json.str "Unknown"),
         ("blocked-uri", Json.str "Unknown"),
         ("original-report", Json.str "\x7b\x7d")]) := by
  have hmb : middlewareBody data parsed = Json.obj [] := by
    have hcond : ((data != "") && (jsTrim data != "")) = false := by
      rw [h]
      simp
    simp [middlewareBody, hcond]
  refine ⟨hmb, ?_⟩
  rw [hmb]
  have hx : extractReportData (Json.obj []) =
      Except.ok (emptyInvalidSentinel (Json.obj [])) := rfl
  have hser : jsonStringify (Json.obj []) = "\x7b\x7d" := by
    simp [jsonStringify, jsonFieldsStringify]
  rw [hx, emptyInvalidSentinel, hser]

theorem emptyBodySentinelReportWitness :
    jsTrim "  " = "" ∧
    (middlewareBody "  " none = Json.obj [] ∧
     extractReportData (middlewareBody "  " none) =
       Except.ok (Json.obj
         [("document-uri", Json.str "Unknown (Empty or Invalid Format)"),
          ("violated-directive", Json.str "Unknown"),
          ("blocked-uri", Json.str "Unknown"),
          ("original-report", Json.str "\x7b\x7d")])) :=
  ⟨by decide, emptyBodySentinelReport "  " none (by decide)⟩

end CspCollector
